import Mathlib

/-!
Shallow embedding of `Emergency-Response-Agent/app.py`, a Flask application
that glues four AI agents behind HTTP routes.

Modelling conventions:
* Python/JSON values are the inductive `Json`; Python truthiness is `truthy`.
* Python exceptions are `Except String` values (the `String` is `str(e)`).
* Agent objects (coordinator, policy checker, ...) are opaque: they are
  represented by `Nat` instance identifiers, and their methods, together
  with Python builtins applied to opaque values (`float`, `int`, enum
  constructors, `isoformat`), live in an `Env` record of uninterpreted
  functions that may raise.
* `asyncio` event loops are modelled by a state `Sys` that records the set
  of currently open loops and a full trace of loop events
  (`created` / `ran` for each `run_until_complete` call / `closed`).
* Each route handler becomes a function `Env → inputs → Sys → Resp × Sys`
  (handlers with a top-level `try/except` are split into a `_body` that
  returns `Except String Resp × Sys` and a wrapper translating an escaped
  exception into the 400/500 error response, mirroring the source).
-/

/-- JSON / Python values as they flow through the handlers. -/
inductive Json where
  | null : Json
  | bool (b : Bool) : Json
  | num (n : Int) : Json
  | str (s : String) : Json
  | arr (xs : List Json) : Json
  | obj (fs : List (String × Json)) : Json

/-- Python truthiness of a value (`if x:`). -/
def truthy : Json → Bool
  | .null => false
  | .bool b => b
  | .num n => n ≠ 0
  | .str s => s ≠ ""
  | .arr xs => !xs.isEmpty
  | .obj fs => !fs.isEmpty

/-- Python `x == "lit"` where `x` is an arbitrary value: equal strings only. -/
def jEqStr (j : Json) (s : String) : Bool :=
  match j with
  | .str t => t = s
  | _ => false

/-- `d[k]` on a parsed JSON dict: `KeyError` when the key is absent. -/
def jLookup (d : List (String × Json)) (k : String) : Except String Json :=
  match d.lookup k with
  | some v => .ok v
  | none => .error ("KeyError: " ++ k)

/-- `d.get(k, default)` on a parsed JSON dict. -/
def jGetD (d : List (String × Json)) (k : String) (dflt : Json) : Json :=
  (d.lookup k).getD dflt

/-- `x[k]` where `x` is an arbitrary value: lookup on dicts, `TypeError`
otherwise (e.g. `None['incident_type']`). -/
def jIndex (j : Json) (k : String) : Except String Json :=
  match j with
  | .obj fs => jLookup fs k
  | _ => .error "TypeError: object is not subscriptable"

/-- `x.get(k, default)` where `x` is an arbitrary value: `AttributeError`
unless `x` is a dict. -/
def jDictGet (j : Json) (k : String) (dflt : Json) : Except String Json :=
  match j with
  | .obj fs => .ok (jGetD fs k dflt)
  | _ => .error "AttributeError: object has no attribute get"

/-- `for x in j`: the list of iterated elements; `TypeError` on
non-iterable values.  Iterating a dict yields its keys, iterating a string
yields its one-character strings. -/
def jIter : Json → Except String (List Json)
  | .arr xs => .ok xs
  | .obj fs => .ok (fs.map (fun kv => Json.str kv.1))
  | .str s => .ok (s.toList.map (fun c => Json.str (String.mk [c])))
  | _ => .error "TypeError: object is not iterable"

/-- Field access on a JSON object (used to state properties of responses). -/
def jField : Json → String → Option Json
  | .obj fs, k => fs.lookup k
  | _, _ => none

/-- Two-level field access on a JSON object. -/
def jField2 (j : Json) (k1 k2 : String) : Option Json :=
  match jField j k1 with
  | some v => jField v k2
  | none => none

/-- An HTTP response: status code and JSON body (`jsonify`). -/
structure Resp where
  status : Nat
  body : Json

/-- The `(jsonify({'success': False, 'error': str(e)}), code)` response. -/
def errResp (code : Nat) (e : String) : Resp :=
  ⟨code, .obj [("success", .bool false), ("error", .str e)]⟩

/-- A rendered template page: template name and context variables. -/
structure Template where
  name : String
  context : List (String × Json)

/-- The mutable fields of `IntegratedAgentManager` (`__init__`).  Agent
instances are opaque `Nat` identifiers; `none` is Python `None`. -/
structure AgentManager where
  coordinator : Option Nat
  policy_checker : Option Nat
  citizen_assistant : Option Nat
  document_agent : Option Nat
  initialized : Bool

/-- `IntegratedAgentManager.__init__`: every agent `None`, not initialized. -/
def AgentManager.new : AgentManager := ⟨none, none, none, none, false⟩

/-- One event in the life of the process's asyncio loops. -/
inductive LoopEvent where
  | created (id : Nat) : LoopEvent
  | ran (id : Nat) : LoopEvent
  | closed (id : Nat) : LoopEvent

/-- Global interpreter state threaded through a request: the agent manager,
fresh-identifier supplies, the set of open event loops and the loop trace. -/
structure Sys where
  mgr : AgentManager
  nextCoordId : Nat
  nextLoopId : Nat
  openLoops : List Nat
  loopEvents : List LoopEvent

/-- `asyncio.new_event_loop()`: allocates a fresh loop, records it open. -/
def newEventLoop (s : Sys) : Nat × Sys :=
  (s.nextLoopId,
   { s with nextLoopId := s.nextLoopId + 1,
            openLoops := s.openLoops ++ [s.nextLoopId],
            loopEvents := s.loopEvents ++ [.created s.nextLoopId] })

/-- `loop.run_until_complete(coro)`: records the run and yields the
coroutine's outcome (a value or a raised exception). -/
def runUntilComplete (lid : Nat) (act : Except String α) (s : Sys) :
    Except String α × Sys :=
  (act, { s with loopEvents := s.loopEvents ++ [.ran lid] })

/-- `loop.close()`: the loop is no longer open. -/
def closeLoop (lid : Nat) (s : Sys) : Sys :=
  { s with openLoops := s.openLoops.erase lid,
           loopEvents := s.loopEvents ++ [.closed lid] }

/-- `EmergencyResponseCoordinator()`: allocation of a fresh opaque instance. -/
def EmergencyResponseCoordinator.new (s : Sys) : Nat × Sys :=
  (s.nextCoordId, { s with nextCoordId := s.nextCoordId + 1 })

/-- `get_coordinator()`: lazily create and cache the coordinator. -/
def get_coordinator (s : Sys) : Nat × Sys :=
  match s.mgr.coordinator with
  | none =>
    let cs := EmergencyResponseCoordinator.new s
    (cs.1, { cs.2 with mgr := { cs.2.mgr with coordinator := some cs.1 } })
  | some c => (c, s)

/-- `get_agent_manager()`. -/
def get_agent_manager (s : Sys) : AgentManager := s.mgr

/-- `EmergencyScenario` as constructed in `api_create_scenario`.  Enum
fields hold the enum's canonical `.value`. -/
structure EmergencyScenario where
  scenario_id : Json
  incident_type : Json
  severity_level : Json
  location : Json
  affected_area_radius : Json
  estimated_population_affected : Int
  duration_hours : Int
  description : Json
  special_conditions : Json

/-- `ResourceAllocation` part of a response plan (opaque field values). -/
structure ResourceAllocation where
  personnel_deployment : Json
  equipment_requirements : Json
  facility_assignments : Json

/-- A timeline milestone of a response plan (opaque field values). -/
structure TimelineMilestone where
  milestone_name : Json
  estimated_time : Json
  responsible_agency : Json
  description : Json

/-- A response plan as returned by `coordinate_response` (opaque values;
`activation_time` and `estimated_time` are opaque datetime objects). -/
structure ResponsePlan where
  plan_id : Json
  scenario_id : Json
  lead_agency : Json
  supporting_agencies : Json
  activation_time : Json
  estimated_duration : Json
  immediate_actions : Json
  resource_allocation : ResourceAllocation
  timeline_milestones : List TimelineMilestone
  communication_plan : Json

/-- Weather data returned by `weather_service.get_current_conditions`. -/
structure WeatherData where
  temperature : Json
  humidity : Json
  wind_speed : Json
  wind_direction : Json
  pressure : Json
  visibility : Json
  conditions : Json

/-- The uninterpreted environment: opaque agent methods and Python builtins
applied to opaque values.  Every such call may raise (return `.error`). -/
structure Env where
  nowStamp : String
  emergencyTypeValues : List Json
  severityLevelValues : List Json
  emergencyType : Json → Except String Json
  severityLevel : Json → Except String Json
  pyIntJ : Json → Except String Int
  pyFloatJ : Json → Except String Json
  pyFloatS : String → Except String Json
  pyStr : Json → String
  pyStrJ : Json → String
  isoformat : Json → Json
  mkScenario4 : Json → Json → Json → Json → Except String EmergencyScenario
  coordinate_response : Nat → EmergencyScenario → Except String ResponsePlan
  get_current_conditions : Nat → Json → Json → Except String WeatherData
  analyze_document : Nat → Json → Except String Json
  analyze_policy_text : Nat → Json → Except String Json
  chat : Nat → Json → Except String Json
  process_document : Nat → Json → Json → Json → Except String Json

/-! ## The API handlers -/

/-- Lines 164–174: construction of the `EmergencyScenario` from the request
JSON, with the source's argument evaluation order and defaults. -/
def parseScenario (env : Env) (data : List (String × Json)) :
    Except String EmergencyScenario :=
  let sid := jGetD data "scenario_id" (.str ("scenario_" ++ env.nowStamp))
  match jLookup data "incident_type" with
  | .error e => .error e
  | .ok itRaw =>
  match env.emergencyType itRaw with
  | .error e => .error e
  | .ok it =>
  match jLookup data "severity_level" with
  | .error e => .error e
  | .ok svRaw =>
  match env.pyIntJ svRaw with
  | .error e => .error e
  | .ok svInt =>
  match env.severityLevel (.num svInt) with
  | .error e => .error e
  | .ok sv =>
  match jLookup data "location" with
  | .error e => .error e
  | .ok loc =>
  match jLookup data "affected_area_radius" with
  | .error e => .error e
  | .ok radRaw =>
  match env.pyFloatJ radRaw with
  | .error e => .error e
  | .ok rad =>
  match jLookup data "estimated_population_affected" with
  | .error e => .error e
  | .ok popRaw =>
  match env.pyIntJ popRaw with
  | .error e => .error e
  | .ok pop =>
  match env.pyIntJ (jGetD data "duration_hours" (.num 24)) with
  | .error e => .error e
  | .ok dur =>
  .ok ⟨sid, it, sv, loc, rad, pop, dur,
       jGetD data "description" (.str ""),
       jGetD data "special_conditions" (.arr [])⟩

/-- Lines 215–224: the `'scenario'` object of the success response (the
eight echoed fields; enum `.value` is the canonical value itself). -/
def scenarioJson (sc : EmergencyScenario) : Json :=
  .obj [("scenario_id", sc.scenario_id),
        ("incident_type", sc.incident_type),
        ("severity_level", sc.severity_level),
        ("location", sc.location),
        ("affected_area_radius", sc.affected_area_radius),
        ("estimated_population_affected", .num sc.estimated_population_affected),
        ("duration_hours", .num sc.duration_hours),
        ("description", sc.description)]

/-- Lines 189–211: the `'response_plan'` dict built from the plan. -/
def planJson (env : Env) (p : ResponsePlan) : Json :=
  .obj [("plan_id", p.plan_id),
        ("scenario_id", p.scenario_id),
        ("lead_agency", p.lead_agency),
        ("supporting_agencies", p.supporting_agencies),
        ("activation_time", env.isoformat p.activation_time),
        ("estimated_duration", .str (env.pyStr p.estimated_duration)),
        ("immediate_actions", p.immediate_actions),
        ("resource_allocation", .obj [
           ("personnel_deployment", p.resource_allocation.personnel_deployment),
           ("equipment_requirements", p.resource_allocation.equipment_requirements),
           ("facility_assignments", p.resource_allocation.facility_assignments)]),
        ("timeline_milestones", .arr (p.timeline_milestones.map (fun m =>
           .obj [("milestone_name", m.milestone_name),
                 ("estimated_time", env.isoformat m.estimated_time),
                 ("responsible_agency", m.responsible_agency),
                 ("description", m.description)]))),
        ("communication_plan", p.communication_plan)]

/-- The `try:` block of `api_create_scenario` (lines 160–226). -/
def api_create_scenario_body (env : Env) (data : List (String × Json))
    (s0 : Sys) : Except String Resp × Sys :=
  match parseScenario env data with
  | .error e => (.error e, s0)
  | .ok scen =>
    let cs := get_coordinator s0
    let ls := newEventLoop cs.2
    let rs := runUntilComplete ls.1 (env.coordinate_response cs.1 scen) ls.2
    let s4 := closeLoop ls.1 rs.2
    match rs.1 with
    | .error e => (.error e, s4)
    | .ok plan =>
      (.ok ⟨200, .obj [("success", .bool true),
                       ("scenario", scenarioJson scen),
                       ("response_plan", planJson env plan)]⟩, s4)

/-- `api_create_scenario` (`POST /api/scenarios`): any escaped exception
becomes a 400 error response. -/
def api_create_scenario (env : Env) (data : List (String × Json))
    (s0 : Sys) : Resp × Sys :=
  match api_create_scenario_body env data s0 with
  | (.ok resp, s) => (resp, s)
  | (.error e, s) => (errResp 400 e, s)

/-- The `'weather'` object of the weather success response. -/
def weatherJson (w : WeatherData) : Json :=
  .obj [("temperature", w.temperature),
        ("humidity", w.humidity),
        ("wind_speed", w.wind_speed),
        ("wind_direction", w.wind_direction),
        ("pressure", w.pressure),
        ("visibility", w.visibility),
        ("conditions", w.conditions)]

/-- The `try:` block of `api_get_weather` (lines 237–262).  `float(lat)`
and `float(lon)` are evaluated inside the inner `try`, after the loop is
created and before `run_until_complete` is entered. -/
def api_get_weather_body (env : Env) (lat lon : String) (s0 : Sys) :
    Except String Resp × Sys :=
  let cs := get_coordinator s0
  let ls := newEventLoop cs.2
  match env.pyFloatS lat with
  | .error e => (.error e, closeLoop ls.1 ls.2)
  | .ok flat =>
  match env.pyFloatS lon with
  | .error e => (.error e, closeLoop ls.1 ls.2)
  | .ok flon =>
    let rs := runUntilComplete ls.1
      (env.get_current_conditions cs.1 flat flon) ls.2
    let s4 := closeLoop ls.1 rs.2
    match rs.1 with
    | .error e => (.error e, s4)
    | .ok w =>
      (.ok ⟨200, .obj [("success", .bool true),
                       ("weather", weatherJson w)]⟩, s4)

/-- `api_get_weather` (`GET /api/weather/<lat>/<lon>`): any escaped
exception becomes a 400 error response. -/
def api_get_weather (env : Env) (lat lon : String) (s0 : Sys) : Resp × Sys :=
  match api_get_weather_body env lat lon s0 with
  | (.ok resp, s) => (resp, s)
  | (.error e, s) => (errResp 400 e, s)

/-- The `try:` block of `api_policy_analyze` (lines 313–350). -/
def api_policy_analyze_body (env : Env) (data : List (String × Json))
    (s0 : Sys) : Except String Resp × Sys :=
  match (get_agent_manager s0).policy_checker with
  | none =>
    (.ok ⟨503, .obj [("success", .bool false),
                     ("error", .str "Policy Compliance Checker not available")]⟩, s0)
  | some pid =>
    let document_path := jGetD data "document_path" .null
    let policy_text := jGetD data "policy_text" .null
    if !truthy document_path && !truthy policy_text then
      (.ok ⟨400, .obj [("success", .bool false),
                       ("error", .str "Either document_path or policy_text required")]⟩, s0)
    else
      let ls := newEventLoop s0
      let rs := runUntilComplete ls.1
        (if truthy document_path then env.analyze_document pid document_path
         else env.analyze_policy_text pid policy_text) ls.2
      let s3 := closeLoop ls.1 rs.2
      match rs.1 with
      | .error e => (.error e, s3)
      | .ok result =>
        (.ok ⟨200, .obj [("success", .bool true), ("analysis", result)]⟩, s3)

/-- `api_policy_analyze` (`POST /api/policy/analyze`): any escaped
exception becomes a 500 error response. -/
def api_policy_analyze (env : Env) (data : List (String × Json))
    (s0 : Sys) : Resp × Sys :=
  match api_policy_analyze_body env data s0 with
  | (.ok resp, s) => (resp, s)
  | (.error e, s) => (errResp 500 e, s)

/-- The `try:` block of `api_citizen_chat` (lines 367–398). -/
def api_citizen_chat_body (env : Env) (data : List (String × Json))
    (s0 : Sys) : Except String Resp × Sys :=
  match (get_agent_manager s0).citizen_assistant with
  | none =>
    (.ok ⟨503, .obj [("success", .bool false),
                     ("error", .str "Virtual Citizen Assistant not available")]⟩, s0)
  | some cid =>
    let message := jGetD data "message" .null
    if !truthy message then
      (.ok ⟨400, .obj [("success", .bool false),
                       ("error", .str "Message required")]⟩, s0)
    else
      let ls := newEventLoop s0
      let rs := runUntilComplete ls.1 (env.chat cid message) ls.2
      let s3 := closeLoop ls.1 rs.2
      match rs.1 with
      | .error e => (.error e, s3)
      | .ok response =>
        (.ok ⟨200, .obj [("success", .bool true), ("response", response)]⟩, s3)

/-- `api_citizen_chat` (`POST /api/citizen/chat`): any escaped exception
becomes a 500 error response. -/
def api_citizen_chat (env : Env) (data : List (String × Json))
    (s0 : Sys) : Resp × Sys :=
  match api_citizen_chat_body env data s0 with
  | (.ok resp, s) => (resp, s)
  | (.error e, s) => (errResp 500 e, s)

/-- The `try:` block of `api_document_process` (lines 415–450). -/
def api_document_process_body (env : Env) (data : List (String × Json))
    (s0 : Sys) : Except String Resp × Sys :=
  match (get_agent_manager s0).document_agent with
  | none =>
    (.ok ⟨503, .obj [("success", .bool false),
                     ("error", .str "Document Eligibility Agent not available")]⟩, s0)
  | some did =>
    let document_type := jGetD data "document_type" .null
    let document_content := jGetD data "document_content" .null
    let applicant_info := jGetD data "applicant_info" (.obj [])
    if !truthy document_type || !truthy document_content then
      (.ok ⟨400, .obj [("success", .bool false),
                       ("error", .str "Document type and content required")]⟩, s0)
    else
      let ls := newEventLoop s0
      let rs := runUntilComplete ls.1
        (env.process_document did document_type document_content applicant_info) ls.2
      let s3 := closeLoop ls.1 rs.2
      match rs.1 with
      | .error e => (.error e, s3)
      | .ok result =>
        (.ok ⟨200, .obj [("success", .bool true), ("result", result)]⟩, s3)

/-- `api_document_process` (`POST /api/document/process`): any escaped
exception becomes a 500 error response. -/
def api_document_process (env : Env) (data : List (String × Json))
    (s0 : Sys) : Resp × Sys :=
  match api_document_process_body env data s0 with
  | (.ok resp, s) => (resp, s)
  | (.error e, s) => (errResp 500 e, s)

/-- Lines 476–497: the `emergency_policy_check` scenario part of
`api_agents_collaborate`; `scenario_result` stays `None` when no
coordinator is present. -/
def collabScenario (env : Env) (scenario_data : Json) (s0 : Sys) :
    Except String Json × Sys :=
  match s0.mgr.coordinator with
  | none => (.ok .null, s0)
  | some cid =>
    match jIndex scenario_data "incident_type" with
    | .error e => (.error e, s0)
    | .ok itRaw =>
    match env.emergencyType itRaw with
    | .error e => (.error e, s0)
    | .ok it =>
    match jIndex scenario_data "severity_level" with
    | .error e => (.error e, s0)
    | .ok svRaw =>
    match env.severityLevel svRaw with
    | .error e => (.error e, s0)
    | .ok sv =>
    match jIndex scenario_data "location" with
    | .error e => (.error e, s0)
    | .ok loc =>
    match jIndex scenario_data "description" with
    | .error e => (.error e, s0)
    | .ok desc =>
    match env.mkScenario4 it sv loc desc with
    | .error e => (.error e, s0)
    | .ok scen =>
      let ls := newEventLoop s0
      let rs := runUntilComplete ls.1 (env.coordinate_response cid scen) ls.2
      let s3 := closeLoop ls.1 rs.2
      match rs.1 with
      | .error e => (.error e, s3)
      | .ok plan =>
        (.ok (.obj [("plan_id", plan.plan_id),
                    ("lead_agency", plan.lead_agency),
                    ("immediate_actions", plan.immediate_actions)]), s3)

/-- Lines 506–510: the `for policy in policy_documents:` loop, running one
`analyze_policy_text` coroutine per document on the same loop. -/
def runPolicies (env : Env) (pid lid : Nat) (ps : List Json)
    (acc : List Json) (s : Sys) : Except String (List Json) × Sys :=
  match ps with
  | [] => (.ok acc, s)
  | p :: rest =>
    let rs := runUntilComplete lid (env.analyze_policy_text pid p) s
    match rs.1 with
    | .error e => (.error e, rs.2)
    | .ok result => runPolicies env pid lid rest (acc ++ [result]) rs.2

/-- Lines 499–512: the policy-compliance part of `api_agents_collaborate`;
`policy_results` stays `[]` unless a checker is present and
`policy_documents` is truthy. -/
def collabPolicies (env : Env) (policy_documents : Json) (s0 : Sys) :
    Except String Json × Sys :=
  match s0.mgr.policy_checker with
  | none => (.ok (.arr []), s0)
  | some pid =>
    if truthy policy_documents then
      let ls := newEventLoop s0
      match jIter policy_documents with
      | .error e => (.error e, closeLoop ls.1 ls.2)
      | .ok ps =>
        let rs := runPolicies env pid ls.1 ps [] ls.2
        let s3 := closeLoop ls.1 rs.2
        match rs.1 with
        | .error e => (.error e, s3)
        | .ok results => (.ok (.arr results), s3)
    else (.ok (.arr []), s0)

/-- The `try:` block of `api_agents_collaborate` (lines 462–525). -/
def api_agents_collaborate_body (env : Env) (data : List (String × Json))
    (s0 : Sys) : Except String Resp × Sys :=
  let task_type := jGetD data "task_type" .null
  let task_data := jGetD data "task_data" (.obj [])
  if jEqStr task_type "emergency_policy_check" then
    match jDictGet task_data "scenario" .null with
    | .error e => (.error e, s0)
    | .ok scenario_data =>
    match jDictGet task_data "policies" (.arr []) with
    | .error e => (.error e, s0)
    | .ok policy_documents =>
      match collabScenario env scenario_data s0 with
      | (.error e, s1) => (.error e, s1)
      | (.ok scenario_result, s1) =>
        match collabPolicies env policy_documents s1 with
        | (.error e, s2) => (.error e, s2)
        | (.ok policy_compliance, s2) =>
          (.ok ⟨200, .obj [("success", .bool true),
                           ("emergency_response", scenario_result),
                           ("policy_compliance", policy_compliance),
                           ("collaboration_summary",
                            .str "Emergency response plan generated with policy compliance validation")]⟩,
           s2)
  else
    (.ok ⟨400, .obj [("success", .bool false),
                     ("error", .str ("Unknown task type: " ++ env.pyStrJ task_type))]⟩,
     s0)

/-- `api_agents_collaborate` (`POST /api/agents/collaborate`): any escaped
exception becomes a 500 error response. -/
def api_agents_collaborate (env : Env) (data : List (String × Json))
    (s0 : Sys) : Resp × Sys :=
  match api_agents_collaborate_body env data s0 with
  | (.ok resp, s) => (resp, s)
  | (.error e, s) => (errResp 500 e, s)

/-- `api_agents_status` (`GET /api/agents/status`), lines 534–556. -/
def api_agents_status (s : Sys) : Resp × Sys :=
  let manager := get_agent_manager s
  (⟨200, .obj [
     ("emergency_response", .obj [
        ("available", .bool manager.coordinator.isSome),
        ("status", .str (if manager.coordinator.isSome then "active" else "unavailable"))]),
     ("policy_compliance", .obj [
        ("available", .bool manager.policy_checker.isSome),
        ("status", .str (if manager.policy_checker.isSome then "active" else "unavailable"))]),
     ("citizen_assistant", .obj [
        ("available", .bool manager.citizen_assistant.isSome),
        ("status", .str (if manager.citizen_assistant.isSome then "active" else "unavailable"))]),
     ("document_eligibility", .obj [
        ("available", .bool manager.document_agent.isSome),
        ("status", .str (if manager.document_agent.isSome then "active" else "unavailable"))]),
     ("system_status", .str (if manager.initialized then "operational" else "initializing"))]⟩,
   s)

/-! ## Plain page routes -/

/-- `GET /`. -/
def index (s : Sys) : Template × Sys := (⟨"index.html", []⟩, s)

/-- `GET /dashboard`. -/
def dashboard (s : Sys) : Template × Sys := (⟨"dashboard.html", []⟩, s)

/-- `GET /create_scenario` (enum value lists come from the opaque enums). -/
def create_scenario (env : Env) (s : Sys) : Template × Sys :=
  (⟨"create_scenario.html",
    [("emergency_types", .arr env.emergencyTypeValues),
     ("severity_levels", .arr env.severityLevelValues)]⟩, s)

/-- `GET /scenarios`. -/
def scenarios (s : Sys) : Template × Sys := (⟨"scenarios.html", []⟩, s)

/-- `GET /plan/<plan_id>`. -/
def view_plan (plan_id : String) (s : Sys) : Template × Sys :=
  (⟨"plan_detail.html", [("plan_id", .str plan_id)]⟩, s)

/-- `GET /map`. -/
def map_view (s : Sys) : Template × Sys := (⟨"map.html", []⟩, s)

/-- `GET /reports`. -/
def reports (s : Sys) : Template × Sys := (⟨"reports.html", []⟩, s)

/-- `GET /policy-compliance`. -/
def policy_compliance (s : Sys) : Template × Sys :=
  (⟨"policy_compliance.html", []⟩, s)

/-- `GET /citizen-assistant`. -/
def citizen_assistant (s : Sys) : Template × Sys :=
  (⟨"citizen_assistant.html", []⟩, s)

/-- `GET /document-eligibility`. -/
def document_eligibility (s : Sys) : Template × Sys :=
  (⟨"document_eligibility.html", []⟩, s)

/-- `GET /agents` (lines 292–302): reads the manager, renders the hub. -/
def agents_hub (s : Sys) : Template × Sys :=
  let manager := get_agent_manager s
  (⟨"agents_hub.html",
    [("agent_status", .obj [
       ("emergency_response", .bool manager.coordinator.isSome),
       ("policy_compliance", .bool manager.policy_checker.isSome),
       ("citizen_assistant", .bool manager.citizen_assistant.isSome),
       ("document_eligibility", .bool manager.document_agent.isSome)])]⟩, s)

/-! ## Module-level optional imports and `IntegratedAgentManager.initialize` -/

/-- Outcome of the module-level `try: from main import ...` blocks
(lines 32–57): the class variable (`none` = Python `None`) and the
availability flag. -/
def tryImport (res : Option Unit) : Option Unit × Bool :=
  match res with
  | some c => (some c, true)
  | none => (none, false)

/-- The module-level import state: the three optional class variables and
their availability flags. -/
structure Imports where
  PolicyComplianceChecker : Option Unit
  policy_checker_available : Bool
  VirtualCitizenAssistant : Option Unit
  citizen_assistant_available : Bool
  DocumentEligibilityAgent : Option Unit
  document_agent_available : Bool

/-- `if PolicyComplianceChecker and policy_checker_available:` (line 87). -/
def pGuard (imp : Imports) : Bool :=
  imp.PolicyComplianceChecker.isSome && imp.policy_checker_available

/-- `if VirtualCitizenAssistant and citizen_assistant_available:` (line 97). -/
def cGuard (imp : Imports) : Bool :=
  imp.VirtualCitizenAssistant.isSome && imp.citizen_assistant_available

/-- `if DocumentEligibilityAgent and document_agent_available:` (line 103). -/
def dGuard (imp : Imports) : Bool :=
  imp.DocumentEligibilityAgent.isSome && imp.document_agent_available

/-- Uninterpreted outcomes of the constructor and `initialize()` calls made
by `IntegratedAgentManager.initialize`.  The coordinator calls are indexed
by attempt (0 = main path, 1 = fallback path); a `.error` is a raised
exception. -/
structure InitEnv where
  coordCtor : Nat → Except String Nat
  coordInitCall : Nat → Except String Unit
  policyCtor : Except String Nat
  policyInit : Except String Unit
  citizenCtor : Except String Nat
  citizenInit : Except String Unit
  docCtor : Except String Nat
  docInit : Except String Unit

/-- `self.coordinator = EmergencyResponseCoordinator()` followed by
`await self.coordinator.initialize()`: the attribute is assigned before the
awaited call, so it survives a failing `initialize()`. -/
def coordStep (env : InitEnv) (attempt : Nat) (m : AgentManager) :
    Option String × AgentManager :=
  match env.coordCtor attempt with
  | .error e => (some e, m)
  | .ok cid =>
    let m' := { m with coordinator := some cid }
    match env.coordInitCall attempt with
    | .error e => (some e, m')
    | .ok _ => (none, m')

/-- A guarded `self.X = Ctor(...)` / `await self.X.initialize()` block for
one optional agent; `set` assigns the agent's attribute. -/
def initAgentStep (guard : Bool) (ctor : Except String Nat)
    (icall : Except String Unit) (set : AgentManager → Option Nat → AgentManager)
    (m : AgentManager) : Option String × AgentManager :=
  if guard then
    match ctor with
    | .error e => (some e, m)
    | .ok aid =>
      let m' := set m (some aid)
      match icall with
      | .error e => (some e, m')
      | .ok _ => (none, m')
  else (none, m)

/-- Sequencing of statements that may raise: a raised exception skips the
rest of the block but keeps the assignments already made. -/
def stepThen (r : Option String × AgentManager)
    (k : AgentManager → Option String × AgentManager) :
    Option String × AgentManager :=
  match r with
  | (some e, m) => (some e, m)
  | (none, m) => k m

/-- Assign `self.policy_checker`. -/
def setPolicy (m : AgentManager) (v : Option Nat) : AgentManager :=
  { m with policy_checker := v }

/-- Assign `self.citizen_assistant`. -/
def setCitizen (m : AgentManager) (v : Option Nat) : AgentManager :=
  { m with citizen_assistant := v }

/-- Assign `self.document_agent`. -/
def setDoc (m : AgentManager) (v : Option Nat) : AgentManager :=
  { m with document_agent := v }

/-- The main `try:` block of `IntegratedAgentManager.initialize`
(lines 80–109): coordinator, then the three guarded optional agents, then
`self.initialized = True`.  `none` in the first component means the block
completed without exception. -/
def tryMainInit (env : InitEnv) (imp : Imports) (m : AgentManager) :
    Option String × AgentManager :=
  stepThen (coordStep env 0 m) fun m1 =>
  stepThen (initAgentStep (pGuard imp) env.policyCtor env.policyInit setPolicy m1) fun m2 =>
  stepThen (initAgentStep (cGuard imp) env.citizenCtor env.citizenInit setCitizen m2) fun m3 =>
  stepThen (initAgentStep (dGuard imp) env.docCtor env.docInit setDoc m3) fun m4 =>
  (none, { m4 with initialized := true })

/-- `IntegratedAgentManager.initialize` (lines 78–122), modelled as
`AgentManager.initAll`: the main block, and on any exception the fallback
that rebuilds only the coordinator; returns the method's boolean result and
the manager's final state. -/
def AgentManager.initAll (env : InitEnv) (imp : Imports) (m : AgentManager) :
    Bool × AgentManager :=
  match tryMainInit env imp m with
  | (none, m') => (true, m')
  | (some _, m') =>
    match coordStep env 1 m' with
    | (none, m'') => (true, { m'' with initialized := true })
    | (some _, m'') => (false, m'')

/-- Whether an uninterpreted call completes without raising. -/
def exOk : Except String α → Bool
  | .ok _ => true
  | .error _ => false

/-- Whether one guarded optional-agent block completes without raising. -/
def agentOk (guard : Bool) (ctor : Except String Nat)
    (icall : Except String Unit) : Bool :=
  !guard || (exOk ctor && exOk icall)

/-- Whether the full main path of `initialize` completes without raising. -/
def mainOk (env : InitEnv) (imp : Imports) : Bool :=
  exOk (env.coordCtor 0) && exOk (env.coordInitCall 0) &&
  agentOk (pGuard imp) env.policyCtor env.policyInit &&
  agentOk (cGuard imp) env.citizenCtor env.citizenInit &&
  agentOk (dGuard imp) env.docCtor env.docInit

/-- Whether the coordinator-only fallback completes without raising. -/
def fallbackOk (env : InitEnv) : Bool :=
  exOk (env.coordCtor 1) && exOk (env.coordInitCall 1)

/-! ## Trace measures -/

/-- The ids of the loops created in a trace, in creation order. -/
def createdIds : List LoopEvent → List Nat
  | [] => []
  | .created i :: tr => i :: createdIds tr
  | _ :: tr => createdIds tr

/-- How many `run_until_complete` calls a trace records on loop `lid`. -/
def runCount (lid : Nat) : List LoopEvent → Nat
  | [] => 0
  | .ran j :: tr => (if j = lid then 1 else 0) + runCount lid tr
  | _ :: tr => runCount lid tr

/-! ## Concrete fixtures used by witnesses and counterexamples -/

/-- A concrete response plan (arbitrary opaque field values). -/
def planA : ResponsePlan :=
  ⟨.str "plan_1", .str "scenario_1", .str "FDNY", .arr [.str "NYPD"],
   .str "2025-01-01T00:00:00", .str "dt", .arr [.str "evacuate"],
   ⟨.obj [], .obj [], .obj []⟩,
   [⟨.str "m1", .str "2025-01-01T01:00:00", .str "FDNY", .str "d1"⟩],
   .obj [("channel", .str "radio")]⟩

/-- Concrete weather data. -/
def weatherA : WeatherData :=
  ⟨.num 20, .num 50, .num 5, .str "N", .num 1013, .num 10, .str "clear"⟩

/-- A concrete environment: every opaque call succeeds with simple values,
`float()` on strings succeeds exactly on integer literals. -/
def testEnv : Env where
  nowStamp := "20250101_000000"
  emergencyTypeValues := [.str "fire", .str "flood"]
  severityLevelValues := [.num 1, .num 2, .num 3]
  emergencyType := fun j => .ok j
  severityLevel := fun j => .ok j
  pyIntJ := fun j =>
    match j with
    | .num n => .ok n
    | _ => .error "TypeError: int() argument"
  pyFloatJ := fun j =>
    match j with
    | .num n => .ok (.num n)
    | _ => .error "TypeError: float() argument"
  pyFloatS := fun s =>
    if s = "40" then .ok (.num 40)
    else if s = "73" then .ok (.num 73)
    else .error ("ValueError: could not convert string to float: " ++ s)
  pyStr := fun _ => "6:00:00"
  pyStrJ := fun _ => "None"
  isoformat := fun j => j
  mkScenario4 := fun it sv loc desc =>
    .ok ⟨.str "s4", it, sv, loc, .num 0, 0, 24, desc, .arr []⟩
  coordinate_response := fun _ _ => .ok planA
  get_current_conditions := fun _ _ _ => .ok weatherA
  analyze_document := fun _ j => .ok j
  analyze_policy_text := fun _ j => .ok j
  chat := fun _ j => .ok j
  process_document := fun _ _ _ _ => .ok (.obj [("eligible", .bool true)])

/-- Fresh state: no agents, nothing initialized, no loops. -/
def sysFresh : Sys := ⟨AgentManager.new, 0, 0, [], []⟩

/-- State after a full successful startup: all four agents present. -/
def sysFull : Sys := ⟨⟨some 0, some 1, some 2, some 3, true⟩, 1, 0, [], []⟩

/-- A scenario-creation request body exercising all four defaults. -/
def dataW : List (String × Json) :=
  [("incident_type", .str "fire"), ("severity_level", .num 3),
   ("location", .str "NYC"), ("affected_area_radius", .num 5),
   ("estimated_population_affected", .num 1000)]

/-- The scenario `dataW` parses to under `testEnv`. -/
def scenW : EmergencyScenario :=
  ⟨.str "scenario_20250101_000000", .str "fire", .num 3, .str "NYC",
   .num 5, 1000, 24, .str "", .arr []⟩

/-- A collaboration request: one scenario and two policy documents. -/
def cexData : List (String × Json) :=
  [("task_type", .str "emergency_policy_check"),
   ("task_data", .obj [
      ("scenario", .obj [("incident_type", .str "fire"),
                         ("severity_level", .num 3),
                         ("location", .str "NYC"),
                         ("description", .str "x")]),
      ("policies", .arr [.str "p1", .str "p2"])])]

/-! ## C3: lazy coordinator instantiation -/

/-- Claim C3: `get_coordinator` creates and stores a fresh coordinator only
when `agent_manager.coordinator` is `None`, returns the stored instance
unchanged otherwise, and a second call returns the same instance with no
further creation (the state is unchanged, so the fresh-instance counter in
particular is). -/
theorem get_coordinator_lazy (s : Sys) :
    (get_coordinator (get_coordinator s).2).1 = (get_coordinator s).1 ∧
    (get_coordinator (get_coordinator s).2).2 = (get_coordinator s).2 ∧
    (s.mgr.coordinator = none →
      (get_coordinator s).2.mgr.coordinator = some s.nextCoordId ∧
      (get_coordinator s).1 = s.nextCoordId ∧
      (get_coordinator s).2.nextCoordId = s.nextCoordId + 1) ∧
    (∀ c, s.mgr.coordinator = some c → get_coordinator s = (c, s)) := by
  cases h : s.mgr.coordinator <;>
    simp [get_coordinator, EmergencyResponseCoordinator.new, h]

/-- Witness for C3 at the fresh state: the first call stores instance `0`,
and the second call changes nothing. -/
theorem get_coordinator_lazy_witness :
    (get_coordinator sysFresh).2.mgr.coordinator = some 0 ∧
    (get_coordinator (get_coordinator sysFresh).2).2 = (get_coordinator sysFresh).2 := by
  refine ⟨((get_coordinator_lazy sysFresh).2.2.1 rfl).1, (get_coordinator_lazy sysFresh).2.1⟩

/-! ## C7: page routes leave the agent manager untouched -/

/-- Claim C7: every plain page route (`index`, `dashboard`,
`create_scenario`, `scenarios`, `view_plan`, `map_view`, `reports`,
`policy_compliance`, `citizen_assistant`, `document_eligibility`,
`agents_hub`) only renders a template: the agent manager (its coordinator,
policy_checker, citizen_assistant, document_agent and initialized fields)
is exactly what it was before the request. -/
theorem page_routes_preserve_manager (env : Env) (plan_id : String) (s : Sys) :
    (index s).2.mgr = s.mgr ∧
    (dashboard s).2.mgr = s.mgr ∧
    (create_scenario env s).2.mgr = s.mgr ∧
    (scenarios s).2.mgr = s.mgr ∧
    (view_plan plan_id s).2.mgr = s.mgr ∧
    (map_view s).2.mgr = s.mgr ∧
    (reports s).2.mgr = s.mgr ∧
    (policy_compliance s).2.mgr = s.mgr ∧
    (citizen_assistant s).2.mgr = s.mgr ∧
    (document_eligibility s).2.mgr = s.mgr ∧
    (agents_hub s).2.mgr = s.mgr :=
  ⟨rfl, rfl, rfl, rfl, rfl, rfl, rfl, rfl, rfl, rfl, rfl⟩

/-! ## C9: the agents status endpoint -/

/-- Claim C9: `/api/agents/status` reports `available = True` exactly when
the corresponding manager attribute is not `None`, `status = 'active'`
under the same condition and `'unavailable'` otherwise, and
`system_status = 'operational'` exactly when `initialized` is `True`,
`'initializing'` otherwise. -/
theorem api_agents_status_spec (s : Sys) :
    (jField2 (api_agents_status s).1.body "emergency_response" "available"
        = some (.bool true) ↔ s.mgr.coordinator ≠ none) ∧
    (jField2 (api_agents_status s).1.body "emergency_response" "status"
        = some (.str "active") ↔ s.mgr.coordinator ≠ none) ∧
    (jField2 (api_agents_status s).1.body "emergency_response" "status"
        = some (.str "unavailable") ↔ s.mgr.coordinator = none) ∧
    (jField2 (api_agents_status s).1.body "policy_compliance" "available"
        = some (.bool true) ↔ s.mgr.policy_checker ≠ none) ∧
    (jField2 (api_agents_status s).1.body "policy_compliance" "status"
        = some (.str "active") ↔ s.mgr.policy_checker ≠ none) ∧
    (jField2 (api_agents_status s).1.body "policy_compliance" "status"
        = some (.str "unavailable") ↔ s.mgr.policy_checker = none) ∧
    (jField2 (api_agents_status s).1.body "citizen_assistant" "available"
        = some (.bool true) ↔ s.mgr.citizen_assistant ≠ none) ∧
    (jField2 (api_agents_status s).1.body "citizen_assistant" "status"
        = some (.str "active") ↔ s.mgr.citizen_assistant ≠ none) ∧
    (jField2 (api_agents_status s).1.body "citizen_assistant" "status"
        = some (.str "unavailable") ↔ s.mgr.citizen_assistant = none) ∧
    (jField2 (api_agents_status s).1.body "document_eligibility" "available"
        = some (.bool true) ↔ s.mgr.document_agent ≠ none) ∧
    (jField2 (api_agents_status s).1.body "document_eligibility" "status"
        = some (.str "active") ↔ s.mgr.document_agent ≠ none) ∧
    (jField2 (api_agents_status s).1.body "document_eligibility" "status"
        = some (.str "unavailable") ↔ s.mgr.document_agent = none) ∧
    (jField (api_agents_status s).1.body "system_status"
        = some (.str "operational") ↔ s.mgr.initialized = true) ∧
    (jField (api_agents_status s).1.body "system_status"
        = some (.str "initializing") ↔ s.mgr.initialized = false) := by
  obtain ⟨⟨c, p, ca, da, i⟩, n1, n2, o, tr⟩ := s
  cases c <;> cases p <;> cases ca <;> cases da <;> cases i <;>
    simp [api_agents_status, get_agent_manager, jField, jField2, List.lookup]

/-! ## Loop bookkeeping lemmas -/

lemma get_coordinator_openLoops (s : Sys) :
    (get_coordinator s).2.openLoops = s.openLoops := by
  cases h : s.mgr.coordinator <;>
    simp [get_coordinator, EmergencyResponseCoordinator.new, h]

lemma get_coordinator_nextLoopId (s : Sys) :
    (get_coordinator s).2.nextLoopId = s.nextLoopId := by
  cases h : s.mgr.coordinator <;>
    simp [get_coordinator, EmergencyResponseCoordinator.new, h]

lemma get_coordinator_loopEvents (s : Sys) :
    (get_coordinator s).2.loopEvents = s.loopEvents := by
  cases h : s.mgr.coordinator <;>
    simp [get_coordinator, EmergencyResponseCoordinator.new, h]

lemma runPolicies_openLoops (env : Env) (pid lid : Nat) (ps : List Json)
    (acc : List Json) (s : Sys) :
    (runPolicies env pid lid ps acc s).2.openLoops = s.openLoops := by
  induction ps generalizing acc s with
  | nil => rfl
  | cons p rest ih =>
    cases h : env.analyze_policy_text pid p <;>
      simp [runPolicies, runUntilComplete, h, ih]

lemma runPolicies_nextLoopId (env : Env) (pid lid : Nat) (ps : List Json)
    (acc : List Json) (s : Sys) :
    (runPolicies env pid lid ps acc s).2.nextLoopId = s.nextLoopId := by
  induction ps generalizing acc s with
  | nil => rfl
  | cons p rest ih =>
    cases h : env.analyze_policy_text pid p <;>
      simp [runPolicies, runUntilComplete, h, ih]

lemma api_create_scenario_snd (env : Env) (data : List (String × Json)) (s0 : Sys) :
    (api_create_scenario env data s0).2 = (api_create_scenario_body env data s0).2 := by
  unfold api_create_scenario
  rcases h : api_create_scenario_body env data s0 with ⟨r, s⟩
  cases r <;> simp

lemma api_get_weather_snd (env : Env) (lat lon : String) (s0 : Sys) :
    (api_get_weather env lat lon s0).2 = (api_get_weather_body env lat lon s0).2 := by
  unfold api_get_weather
  rcases h : api_get_weather_body env lat lon s0 with ⟨r, s⟩
  cases r <;> simp

lemma api_policy_analyze_snd (env : Env) (data : List (String × Json)) (s0 : Sys) :
    (api_policy_analyze env data s0).2 = (api_policy_analyze_body env data s0).2 := by
  unfold api_policy_analyze
  rcases h : api_policy_analyze_body env data s0 with ⟨r, s⟩
  cases r <;> simp

lemma api_citizen_chat_snd (env : Env) (data : List (String × Json)) (s0 : Sys) :
    (api_citizen_chat env data s0).2 = (api_citizen_chat_body env data s0).2 := by
  unfold api_citizen_chat
  rcases h : api_citizen_chat_body env data s0 with ⟨r, s⟩
  cases r <;> simp

lemma api_document_process_snd (env : Env) (data : List (String × Json)) (s0 : Sys) :
    (api_document_process env data s0).2 = (api_document_process_body env data s0).2 := by
  unfold api_document_process
  rcases h : api_document_process_body env data s0 with ⟨r, s⟩
  cases r <;> simp

lemma api_agents_collaborate_snd (env : Env) (data : List (String × Json)) (s0 : Sys) :
    (api_agents_collaborate env data s0).2 = (api_agents_collaborate_body env data s0).2 := by
  unfold api_agents_collaborate
  rcases h : api_agents_collaborate_body env data s0 with ⟨r, s⟩
  cases r <;> simp

lemma api_create_scenario_body_openLoops (env : Env) (data : List (String × Json))
    (s0 : Sys) (h : s0.openLoops = []) :
    (api_create_scenario_body env data s0).2.openLoops = [] := by
  unfold api_create_scenario_body
  cases hp : parseScenario env data with
  | error e => simpa using h
  | ok scen =>
    cases hr : env.coordinate_response (get_coordinator s0).1 scen <;>
      simp [newEventLoop, runUntilComplete, closeLoop, hr,
            get_coordinator_openLoops, h]

lemma api_get_weather_body_openLoops (env : Env) (lat lon : String)
    (s0 : Sys) (h : s0.openLoops = []) :
    (api_get_weather_body env lat lon s0).2.openLoops = [] := by
  unfold api_get_weather_body
  cases h1 : env.pyFloatS lat with
  | error e => simp [newEventLoop, closeLoop, get_coordinator_openLoops, h]
  | ok flat =>
    cases h2 : env.pyFloatS lon with
    | error e => simp [newEventLoop, closeLoop, get_coordinator_openLoops, h]
    | ok flon =>
      cases h3 : env.get_current_conditions (get_coordinator s0).1 flat flon <;>
        simp [newEventLoop, runUntilComplete, closeLoop, h3,
              get_coordinator_openLoops, h]

lemma api_policy_analyze_body_openLoops (env : Env) (data : List (String × Json))
    (s0 : Sys) (h : s0.openLoops = []) :
    (api_policy_analyze_body env data s0).2.openLoops = [] := by
  unfold api_policy_analyze_body
  cases hm : (get_agent_manager s0).policy_checker with
  | none => simpa using h
  | some pid =>
    simp only []
    split
    · simpa using h
    · cases hr : (if truthy (jGetD data "document_path" .null) then
          env.analyze_document pid (jGetD data "document_path" .null)
        else env.analyze_policy_text pid (jGetD data "policy_text" .null)) <;>
        simp [newEventLoop, runUntilComplete, closeLoop, hr, h]

lemma api_citizen_chat_body_openLoops (env : Env) (data : List (String × Json))
    (s0 : Sys) (h : s0.openLoops = []) :
    (api_citizen_chat_body env data s0).2.openLoops = [] := by
  unfold api_citizen_chat_body
  cases hm : (get_agent_manager s0).citizen_assistant with
  | none => simpa using h
  | some cid =>
    simp only []
    split
    · simpa using h
    · cases hr : env.chat cid (jGetD data "message" .null) <;>
        simp [newEventLoop, runUntilComplete, closeLoop, hr, h]

lemma api_document_process_body_openLoops (env : Env) (data : List (String × Json))
    (s0 : Sys) (h : s0.openLoops = []) :
    (api_document_process_body env data s0).2.openLoops = [] := by
  unfold api_document_process_body
  cases hm : (get_agent_manager s0).document_agent with
  | none => simpa using h
  | some did =>
    simp only []
    split
    · simpa using h
    · cases hr : env.process_document did (jGetD data "document_type" .null)
          (jGetD data "document_content" .null)
          (jGetD data "applicant_info" (.obj [])) <;>
        simp [newEventLoop, runUntilComplete, closeLoop, hr, h]

lemma collabScenario_openLoops (env : Env) (sd : Json) (s0 : Sys)
    (h : s0.openLoops = []) :
    (collabScenario env sd s0).2.openLoops = [] := by
  unfold collabScenario
  repeat' split
  all_goals simp_all [newEventLoop, runUntilComplete, closeLoop]
  all_goals split <;> simp_all [newEventLoop, runUntilComplete, closeLoop]

lemma collabPolicies_openLoops (env : Env) (pd : Json) (s0 : Sys)
    (h : s0.openLoops = []) :
    (collabPolicies env pd s0).2.openLoops = [] := by
  unfold collabPolicies
  repeat' split
  all_goals simp_all [newEventLoop, closeLoop, runPolicies_openLoops]
  all_goals split <;> simp_all [newEventLoop, closeLoop, runPolicies_openLoops]

lemma api_agents_collaborate_body_openLoops (env : Env) (data : List (String × Json))
    (s0 : Sys) (h : s0.openLoops = []) :
    (api_agents_collaborate_body env data s0).2.openLoops = [] := by
  simp only [api_agents_collaborate_body]
  split
  · cases h1 : jDictGet (jGetD data "task_data" (.obj [])) "scenario" .null with
    | error e => simpa using h
    | ok sd =>
      dsimp only
      cases h2 : jDictGet (jGetD data "task_data" (.obj [])) "policies" (.arr []) with
      | error e => simpa using h
      | ok pd =>
        dsimp only
        rcases h3 : collabScenario env sd s0 with ⟨r1, s1⟩
        have hs1 : s1.openLoops = [] := by
          have := collabScenario_openLoops env sd s0 h
          rw [h3] at this; simpa using this
        cases r1 with
        | error e => simpa using hs1
        | ok sr =>
          dsimp only
          rcases h4 : collabPolicies env pd s1 with ⟨r2, s2⟩
          have hs2 : s2.openLoops = [] := by
            have := collabPolicies_openLoops env pd s1 hs1
            rw [h4] at this; simpa using this
          cases r2 <;> simpa using hs2
  · simpa using h

/-- Claim C1: every event loop a handler creates during a request is closed
before the handler returns, on every execution path (including the paths
where the awaited coroutine raises): starting a request with no open loop,
each of the six API handlers finishes with no open loop. -/
theorem all_loops_closed (env : Env) (data : List (String × Json))
    (lat lon : String) (s0 : Sys) (h : s0.openLoops = []) :
    (api_create_scenario env data s0).2.openLoops = [] ∧
    (api_get_weather env lat lon s0).2.openLoops = [] ∧
    (api_policy_analyze env data s0).2.openLoops = [] ∧
    (api_citizen_chat env data s0).2.openLoops = [] ∧
    (api_document_process env data s0).2.openLoops = [] ∧
    (api_agents_collaborate env data s0).2.openLoops = [] := by
  refine ⟨?_, ?_, ?_, ?_, ?_, ?_⟩
  · rw [api_create_scenario_snd]; exact api_create_scenario_body_openLoops env data s0 h
  · rw [api_get_weather_snd]; exact api_get_weather_body_openLoops env lat lon s0 h
  · rw [api_policy_analyze_snd]; exact api_policy_analyze_body_openLoops env data s0 h
  · rw [api_citizen_chat_snd]; exact api_citizen_chat_body_openLoops env data s0 h
  · rw [api_document_process_snd]; exact api_document_process_body_openLoops env data s0 h
  · rw [api_agents_collaborate_snd]; exact api_agents_collaborate_body_openLoops env data s0 h

/-- Witness for C1: concrete requests against the fully-initialized state
(the collaboration request runs two loops, both end closed), and a failing
weather request (non-numeric latitude) also ends with its loop closed. -/
theorem all_loops_closed_witness :
    (api_agents_collaborate testEnv cexData sysFull).2.openLoops = [] ∧
    (api_get_weather testEnv "abc" "73" sysFull).2.openLoops = [] := by
  refine ⟨(all_loops_closed testEnv cexData "40" "73" sysFull rfl).2.2.2.2.2,
          (all_loops_closed testEnv cexData "abc" "73" sysFull rfl).2.1⟩

/-! ## C8: no endpoint lets an exception escape -/

/-- Claim C8: an exception that escapes a handler's `try:` block never
reaches the caller: `api_create_scenario` and `api_get_weather` turn it
into an HTTP 400 response and `api_policy_analyze`, `api_citizen_chat`,
`api_document_process`, `api_agents_collaborate` into an HTTP 500
response, in every case with body `{'success': False, 'error': str(e)}`. -/
theorem handlers_catch_exceptions (env : Env) (data : List (String × Json))
    (lat lon : String) (s0 : Sys) (e : String) :
    ((api_create_scenario_body env data s0).1 = .error e →
      api_create_scenario env data s0 =
        (errResp 400 e, (api_create_scenario_body env data s0).2)) ∧
    ((api_get_weather_body env lat lon s0).1 = .error e →
      api_get_weather env lat lon s0 =
        (errResp 400 e, (api_get_weather_body env lat lon s0).2)) ∧
    ((api_policy_analyze_body env data s0).1 = .error e →
      api_policy_analyze env data s0 =
        (errResp 500 e, (api_policy_analyze_body env data s0).2)) ∧
    ((api_citizen_chat_body env data s0).1 = .error e →
      api_citizen_chat env data s0 =
        (errResp 500 e, (api_citizen_chat_body env data s0).2)) ∧
    ((api_document_process_body env data s0).1 = .error e →
      api_document_process env data s0 =
        (errResp 500 e, (api_document_process_body env data s0).2)) ∧
    ((api_agents_collaborate_body env data s0).1 = .error e →
      api_agents_collaborate env data s0 =
        (errResp 500 e, (api_agents_collaborate_body env data s0).2)) := by
  refine ⟨fun hb => ?_, fun hb => ?_, fun hb => ?_, fun hb => ?_, fun hb => ?_, fun hb => ?_⟩
  · unfold api_create_scenario
    rcases hq : api_create_scenario_body env data s0 with ⟨r, s⟩
    rw [hq] at hb; subst hb; simp
  · unfold api_get_weather
    rcases hq : api_get_weather_body env lat lon s0 with ⟨r, s⟩
    rw [hq] at hb; subst hb; simp
  · unfold api_policy_analyze
    rcases hq : api_policy_analyze_body env data s0 with ⟨r, s⟩
    rw [hq] at hb; subst hb; simp
  · unfold api_citizen_chat
    rcases hq : api_citizen_chat_body env data s0 with ⟨r, s⟩
    rw [hq] at hb; subst hb; simp
  · unfold api_document_process
    rcases hq : api_document_process_body env data s0 with ⟨r, s⟩
    rw [hq] at hb; subst hb; simp
  · unfold api_agents_collaborate
    rcases hq : api_agents_collaborate_body env data s0 with ⟨r, s⟩
    rw [hq] at hb; subst hb; simp

/-- Witness for C8: a scenario request with an empty body raises
`KeyError: incident_type`, which `api_create_scenario` turns into the 400
error response; the same body makes `api_agents_collaborate` answer with a
task-type 400 (no exception), while a request whose `task_data` is a
string raises inside the `try:` and yields the 500 error response. -/
theorem handlers_catch_exceptions_witness :
    api_create_scenario testEnv [] sysFull =
      (errResp 400 "KeyError: incident_type",
       (api_create_scenario_body testEnv [] sysFull).2) ∧
    api_agents_collaborate testEnv
        [("task_type", .str "emergency_policy_check"), ("task_data", .str "x")] sysFull =
      (errResp 500 "AttributeError: object has no attribute get",
       (api_agents_collaborate_body testEnv
          [("task_type", .str "emergency_policy_check"), ("task_data", .str "x")] sysFull).2) := by
  exact ⟨(handlers_catch_exceptions testEnv [] "0" "0" sysFull
            "KeyError: incident_type").1 rfl,
         (handlers_catch_exceptions testEnv
            [("task_type", .str "emergency_policy_check"), ("task_data", .str "x")]
            "0" "0" sysFull "AttributeError: object has no attribute get").2.2.2.2.2 rfl⟩

/-! ## C5: shape of a successful scenario creation -/

lemma parseScenario_fields (env : Env) (data : List (String × Json))
    (scen : EmergencyScenario) (h : parseScenario env data = .ok scen) :
    scen.scenario_id = jGetD data "scenario_id" (.str ("scenario_" ++ env.nowStamp)) ∧
    scen.description = jGetD data "description" (.str "") ∧
    scen.special_conditions = jGetD data "special_conditions" (.arr []) ∧
    env.pyIntJ (jGetD data "duration_hours" (.num 24)) = .ok scen.duration_hours := by
  unfold parseScenario at h
  repeat' split at h
  all_goals try (injection h with h; subst h)
  all_goals simp_all

/-- Claim C5: on success, `api_create_scenario` answers 200 with
`success = True`, a `scenario` object echoing exactly the eight scenario
fields, and a `response_plan` object with exactly the plan fields
(including the three resource-allocation sub-fields and the four sub-fields
of every timeline milestone); when absent from the request,
`duration_hours` defaults to 24, `description` to the empty string,
`special_conditions` to the empty list and `scenario_id` to the
timestamp-derived value. -/
theorem api_create_scenario_success_shape (env : Env)
    (data : List (String × Json)) (s0 : Sys) (scen : EmergencyScenario)
    (plan : ResponsePlan) (h1 : parseScenario env data = .ok scen)
    (h2 : env.coordinate_response (get_coordinator s0).1 scen = .ok plan) :
    (api_create_scenario env data s0).1 =
      ⟨200, .obj [("success", .bool true),
                  ("scenario", scenarioJson scen),
                  ("response_plan", planJson env plan)]⟩ ∧
    (data.lookup "scenario_id" = none →
      scen.scenario_id = .str ("scenario_" ++ env.nowStamp)) ∧
    (data.lookup "description" = none → scen.description = .str "") ∧
    (data.lookup "special_conditions" = none → scen.special_conditions = .arr []) ∧
    (data.lookup "duration_hours" = none → env.pyIntJ (.num 24) = .ok 24 →
      scen.duration_hours = 24) := by
  obtain ⟨hsid, hdesc, hcond, hdur⟩ := parseScenario_fields env data scen h1
  refine ⟨?_, ?_, ?_, ?_, ?_⟩
  · simp [api_create_scenario, api_create_scenario_body, h1, runUntilComplete, h2]
  · intro hl; rw [hsid]; simp [jGetD, hl]
  · intro hl; rw [hdesc]; simp [jGetD, hl]
  · intro hl; rw [hcond]; simp [jGetD, hl]
  · intro hl h24
    rw [jGetD, hl] at hdur
    simp at hdur
    rw [h24] at hdur
    exact (Except.ok.inj hdur).symm

/-- Witness for C5: the concrete request `dataW` (which omits
`scenario_id`, `duration_hours`, `description` and `special_conditions`)
parses to `scenW` and yields the fully-shaped 200 response with every
default applied. -/
theorem api_create_scenario_success_shape_witness :
    (api_create_scenario testEnv dataW sysFull).1 =
      ⟨200, .obj [("success", .bool true),
                  ("scenario", scenarioJson scenW),
                  ("response_plan", planJson testEnv planA)]⟩ ∧
    scenW.scenario_id = .str ("scenario_" ++ testEnv.nowStamp) ∧
    scenW.duration_hours = 24 := by
  have h := api_create_scenario_success_shape testEnv dataW sysFull scenW planA rfl rfl
  exact ⟨h.1, h.2.1 rfl, h.2.2.2.2 rfl rfl⟩

/-! ## C6: the weather endpoint -/

/-- Claim C6: `api_get_weather` parses `lat` and `lon` with `float`, calls
the weather service's `get_current_conditions` on the parsed values, and on
success answers 200 with `success = True` and a `weather` object holding
exactly the seven service fields; when `float` raises on either segment, or
the service raises, it answers 400 with `success = False` and the
exception's message. -/
theorem api_get_weather_spec (env : Env) (lat lon : String) (s0 : Sys)
    (a b : Json) (w : WeatherData) (e : String) :
    (env.pyFloatS lat = .ok a → env.pyFloatS lon = .ok b →
      env.get_current_conditions (get_coordinator s0).1 a b = .ok w →
      (api_get_weather env lat lon s0).1 =
        ⟨200, .obj [("success", .bool true), ("weather", weatherJson w)]⟩) ∧
    (env.pyFloatS lat = .error e →
      (api_get_weather env lat lon s0).1 = errResp 400 e) ∧
    (env.pyFloatS lat = .ok a → env.pyFloatS lon = .error e →
      (api_get_weather env lat lon s0).1 = errResp 400 e) ∧
    (env.pyFloatS lat = .ok a → env.pyFloatS lon = .ok b →
      env.get_current_conditions (get_coordinator s0).1 a b = .error e →
      (api_get_weather env lat lon s0).1 = errResp 400 e) := by
  refine ⟨fun h1 h2 h3 => ?_, fun h1 => ?_, fun h1 h2 => ?_, fun h1 h2 h3 => ?_⟩ <;>
    simp [api_get_weather, api_get_weather_body, runUntilComplete, h1] <;>
    simp [h2] <;> simp [h3]

/-- Witness for C6: numeric coordinates give the 200 weather response with
the seven fields; a non-numeric latitude gives the 400 error response. -/
theorem api_get_weather_spec_witness :
    (api_get_weather testEnv "40" "73" sysFull).1 =
      ⟨200, .obj [("success", .bool true), ("weather", weatherJson weatherA)]⟩ ∧
    (api_get_weather testEnv "abc" "73" sysFull).1 =
      errResp 400 "ValueError: could not convert string to float: abc" := by
  refine ⟨(api_get_weather_spec testEnv "40" "73" sysFull (.num 40) (.num 73)
            weatherA "x").1 (by rfl) (by rfl) (by rfl),
          (api_get_weather_spec testEnv "abc" "73" sysFull .null .null weatherA
            "ValueError: could not convert string to float: abc").2.1 (by rfl)⟩

/-! ## C4: optional-import fallback chains -/

lemma coordStep_policy (env : InitEnv) (a : Nat) (m : AgentManager) :
    (coordStep env a m).2.policy_checker = m.policy_checker := by
  cases h1 : env.coordCtor a <;> cases h2 : env.coordInitCall a <;>
    simp [coordStep, h1, h2]

lemma coordStep_citizen (env : InitEnv) (a : Nat) (m : AgentManager) :
    (coordStep env a m).2.citizen_assistant = m.citizen_assistant := by
  cases h1 : env.coordCtor a <;> cases h2 : env.coordInitCall a <;>
    simp [coordStep, h1, h2]

lemma coordStep_doc (env : InitEnv) (a : Nat) (m : AgentManager) :
    (coordStep env a m).2.document_agent = m.document_agent := by
  cases h1 : env.coordCtor a <;> cases h2 : env.coordInitCall a <;>
    simp [coordStep, h1, h2]

lemma initAgentStep_pres (g : Bool) (c : Except String Nat)
    (i : Except String Unit) (set : AgentManager → Option Nat → AgentManager)
    (m : AgentManager) (f : AgentManager → Option Nat)
    (hset : ∀ m v, f (set m v) = f m) :
    f (initAgentStep g c i set m).2 = f m := by
  cases g <;> cases hc : c <;> cases hi : i <;>
    simp [initAgentStep, hc, hi, hset]

lemma initAgentStep_skip (c : Except String Nat) (i : Except String Unit)
    (set : AgentManager → Option Nat → AgentManager) (m : AgentManager) :
    initAgentStep false c i set m = (none, m) := rfl

lemma stepThen_pres {P : AgentManager → Prop}
    (r : Option String × AgentManager)
    (k : AgentManager → Option String × AgentManager)
    (hr : P r.2) (hk : ∀ m, P m → P (k m).2) : P (stepThen r k).2 := by
  rcases r with ⟨e, m⟩
  cases e with
  | none => exact hk m hr
  | some e => exact hr

lemma tryMainInit_policy (env : InitEnv) (imp : Imports) (m : AgentManager)
    (hg : pGuard imp = false) :
    (tryMainInit env imp m).2.policy_checker = m.policy_checker := by
  unfold tryMainInit
  refine stepThen_pres (P := fun x => x.policy_checker = m.policy_checker) _ _
    (coordStep_policy env 0 m) (fun m1 h1 => ?_)
  rw [hg, initAgentStep_skip]
  refine stepThen_pres (P := fun x => x.policy_checker = m.policy_checker) _ _ h1
    (fun m2 h2 => ?_)
  refine stepThen_pres (P := fun x => x.policy_checker = m.policy_checker) _ _
    ((initAgentStep_pres _ _ _ setCitizen _ AgentManager.policy_checker
      (fun _ _ => rfl)).trans h2) (fun m3 h3 => ?_)
  exact stepThen_pres (P := fun x => x.policy_checker = m.policy_checker) _ _
    ((initAgentStep_pres _ _ _ setDoc _ AgentManager.policy_checker
      (fun _ _ => rfl)).trans h3) (fun m4 h4 => h4)

lemma tryMainInit_citizen (env : InitEnv) (imp : Imports) (m : AgentManager)
    (hg : cGuard imp = false) :
    (tryMainInit env imp m).2.citizen_assistant = m.citizen_assistant := by
  unfold tryMainInit
  refine stepThen_pres (P := fun x => x.citizen_assistant = m.citizen_assistant) _ _
    (coordStep_citizen env 0 m) (fun m1 h1 => ?_)
  refine stepThen_pres (P := fun x => x.citizen_assistant = m.citizen_assistant) _ _
    ((initAgentStep_pres _ _ _ setPolicy _ AgentManager.citizen_assistant
      (fun _ _ => rfl)).trans h1) (fun m2 h2 => ?_)
  rw [hg, initAgentStep_skip]
  refine stepThen_pres (P := fun x => x.citizen_assistant = m.citizen_assistant) _ _ h2
    (fun m3 h3 => ?_)
  exact stepThen_pres (P := fun x => x.citizen_assistant = m.citizen_assistant) _ _
    ((initAgentStep_pres _ _ _ setDoc _ AgentManager.citizen_assistant
      (fun _ _ => rfl)).trans h3) (fun m4 h4 => h4)

lemma tryMainInit_doc (env : InitEnv) (imp : Imports) (m : AgentManager)
    (hg : dGuard imp = false) :
    (tryMainInit env imp m).2.document_agent = m.document_agent := by
  unfold tryMainInit
  refine stepThen_pres (P := fun x => x.document_agent = m.document_agent) _ _
    (coordStep_doc env 0 m) (fun m1 h1 => ?_)
  refine stepThen_pres (P := fun x => x.document_agent = m.document_agent) _ _
    ((initAgentStep_pres _ _ _ setPolicy _ AgentManager.document_agent
      (fun _ _ => rfl)).trans h1) (fun m2 h2 => ?_)
  refine stepThen_pres (P := fun x => x.document_agent = m.document_agent) _ _
    ((initAgentStep_pres _ _ _ setCitizen _ AgentManager.document_agent
      (fun _ _ => rfl)).trans h2) (fun m3 h3 => ?_)
  rw [hg, initAgentStep_skip]
  exact stepThen_pres (P := fun x => x.document_agent = m.document_agent) _ _ h3
    (fun m4 h4 => h4)

lemma initAll_policy (env : InitEnv) (imp : Imports) (m : AgentManager)
    (hg : pGuard imp = false) :
    (AgentManager.initAll env imp m).2.policy_checker = m.policy_checker := by
  unfold AgentManager.initAll
  rcases ht : tryMainInit env imp m with ⟨e1, m1⟩
  have hm1 : m1.policy_checker = m.policy_checker := by
    have := tryMainInit_policy env imp m hg
    rw [ht] at this; exact this
  cases e1 with
  | none => simpa using hm1
  | some e =>
    dsimp only
    rcases hf : coordStep env 1 m1 with ⟨e2, m2⟩
    have hm2 : m2.policy_checker = m1.policy_checker := by
      have := coordStep_policy env 1 m1
      rw [hf] at this; exact this
    cases e2 <;> simp [hm2, hm1]

lemma initAll_citizen (env : InitEnv) (imp : Imports) (m : AgentManager)
    (hg : cGuard imp = false) :
    (AgentManager.initAll env imp m).2.citizen_assistant = m.citizen_assistant := by
  unfold AgentManager.initAll
  rcases ht : tryMainInit env imp m with ⟨e1, m1⟩
  have hm1 : m1.citizen_assistant = m.citizen_assistant := by
    have := tryMainInit_citizen env imp m hg
    rw [ht] at this; exact this
  cases e1 with
  | none => simpa using hm1
  | some e =>
    dsimp only
    rcases hf : coordStep env 1 m1 with ⟨e2, m2⟩
    have hm2 : m2.citizen_assistant = m1.citizen_assistant := by
      have := coordStep_citizen env 1 m1
      rw [hf] at this; exact this
    cases e2 <;> simp [hm2, hm1]

lemma initAll_doc (env : InitEnv) (imp : Imports) (m : AgentManager)
    (hg : dGuard imp = false) :
    (AgentManager.initAll env imp m).2.document_agent = m.document_agent := by
  unfold AgentManager.initAll
  rcases ht : tryMainInit env imp m with ⟨e1, m1⟩
  have hm1 : m1.document_agent = m.document_agent := by
    have := tryMainInit_doc env imp m hg
    rw [ht] at this; exact this
  cases e1 with
  | none => simpa using hm1
  | some e =>
    dsimp only
    rcases hf : coordStep env 1 m1 with ⟨e2, m2⟩
    have hm2 : m2.document_agent = m1.document_agent := by
      have := coordStep_doc env 1 m1
      rw [hf] at this; exact this
    cases e2 <;> simp [hm2, hm1]

/-- A concrete initialization environment: every call succeeds. -/
def initEnvOk : InitEnv where
  coordCtor := fun a => .ok a
  coordInitCall := fun _ => .ok ()
  policyCtor := .ok 10
  policyInit := .ok ()
  citizenCtor := .ok 11
  citizenInit := .ok ()
  docCtor := .ok 12
  docInit := .ok ()

/-- The import state when all three optional imports fail. -/
def impNone : Imports := ⟨none, false, none, false, none, false⟩

/-- Claim C4: when an optional agent's import fails, its class variable is
`None` and its availability flag `False`; consequently `initialize` never
stores that agent (the manager attribute stays `None`), and the endpoint
depending on it answers 503 with `success = False` and an error naming the
unavailable agent, touching no state and calling no agent method. -/
theorem optional_agent_fallback (env : Env) (initEnv : InitEnv)
    (imp : Imports) (m : AgentManager) (data : List (String × Json)) (s : Sys) :
    tryImport none = (none, false) ∧
    (imp.PolicyComplianceChecker = none → m.policy_checker = none →
      (AgentManager.initAll initEnv imp m).2.policy_checker = none) ∧
    (imp.VirtualCitizenAssistant = none → m.citizen_assistant = none →
      (AgentManager.initAll initEnv imp m).2.citizen_assistant = none) ∧
    (imp.DocumentEligibilityAgent = none → m.document_agent = none →
      (AgentManager.initAll initEnv imp m).2.document_agent = none) ∧
    (s.mgr.policy_checker = none →
      api_policy_analyze env data s =
        (⟨503, .obj [("success", .bool false),
                     ("error", .str "Policy Compliance Checker not available")]⟩, s)) ∧
    (s.mgr.citizen_assistant = none →
      api_citizen_chat env data s =
        (⟨503, .obj [("success", .bool false),
                     ("error", .str "Virtual Citizen Assistant not available")]⟩, s)) ∧
    (s.mgr.document_agent = none →
      api_document_process env data s =
        (⟨503, .obj [("success", .bool false),
                     ("error", .str "Document Eligibility Agent not available")]⟩, s)) := by
  refine ⟨rfl, fun h1 h2 => ?_, fun h1 h2 => ?_, fun h1 h2 => ?_,
          fun hp => ?_, fun hp => ?_, fun hp => ?_⟩
  · rw [initAll_policy _ _ _ (by simp [pGuard, h1])]; exact h2
  · rw [initAll_citizen _ _ _ (by simp [cGuard, h1])]; exact h2
  · rw [initAll_doc _ _ _ (by simp [dGuard, h1])]; exact h2
  · simp [api_policy_analyze, api_policy_analyze_body, get_agent_manager, hp]
  · simp [api_citizen_chat, api_citizen_chat_body, get_agent_manager, hp]
  · simp [api_document_process, api_document_process_body, get_agent_manager, hp]

/-- Witness for C4: with all three imports failed and a fresh manager, a
successful initialization still leaves `policy_checker` at `None`, and the
policy endpoint answers the 503 error against the fresh state. -/
theorem optional_agent_fallback_witness :
    (AgentManager.initAll initEnvOk impNone AgentManager.new).2.policy_checker = none ∧
    api_policy_analyze testEnv [] sysFresh =
      (⟨503, .obj [("success", .bool false),
                   ("error", .str "Policy Compliance Checker not available")]⟩, sysFresh) := by
  have h := optional_agent_fallback testEnv initEnvOk impNone AgentManager.new [] sysFresh
  exact ⟨h.2.1 rfl rfl, h.2.2.2.2.1 rfl⟩

/-! ## C10: the two-stage failure recovery of initialize -/

lemma coordStep_initialized (env : InitEnv) (a : Nat) (m : AgentManager) :
    (coordStep env a m).2.initialized = m.initialized := by
  cases h1 : env.coordCtor a <;> cases h2 : env.coordInitCall a <;>
    simp [coordStep, h1, h2]

lemma coordStep_fst_none_iff (env : InitEnv) (a : Nat) (m : AgentManager) :
    (coordStep env a m).1 = none ↔
      (exOk (env.coordCtor a) && exOk (env.coordInitCall a)) = true := by
  cases h1 : env.coordCtor a <;> cases h2 : env.coordInitCall a <;>
    simp [coordStep, exOk, h1, h2]

lemma coordStep_coordinator (env : InitEnv) (a : Nat) (m : AgentManager)
    (c : Nat) (h : env.coordCtor a = .ok c) :
    (coordStep env a m).2.coordinator = some c := by
  cases h2 : env.coordInitCall a <;> simp [coordStep, h, h2]

lemma initAgentStep_fst_none_iff (g : Bool) (c : Except String Nat)
    (i : Except String Unit) (set : AgentManager → Option Nat → AgentManager)
    (m : AgentManager) :
    (initAgentStep g c i set m).1 = none ↔ agentOk g c i = true := by
  cases g <;> cases hc : c <;> cases hi : i <;>
    simp [initAgentStep, agentOk, exOk, hc, hi]

lemma initAgentStep_initialized (g : Bool) (c : Except String Nat)
    (i : Except String Unit) (set : AgentManager → Option Nat → AgentManager)
    (m : AgentManager) (hset : ∀ m v, (set m v).initialized = m.initialized) :
    (initAgentStep g c i set m).2.initialized = m.initialized := by
  cases g <;> cases hc : c <;> cases hi : i <;>
    simp [initAgentStep, hc, hi, hset]

lemma stepThen_fst_none (r : Option String × AgentManager)
    (k : AgentManager → Option String × AgentManager) :
    (stepThen r k).1 = none ↔ (r.1 = none ∧ (k r.2).1 = none) := by
  rcases r with ⟨e, m⟩
  cases e <;> simp [stepThen]

lemma tryMainInit_none_iff (env : InitEnv) (imp : Imports) (m : AgentManager) :
    (tryMainInit env imp m).1 = none ↔ mainOk env imp = true := by
  simp [tryMainInit, stepThen_fst_none, coordStep_fst_none_iff,
        initAgentStep_fst_none_iff, mainOk, Bool.and_eq_true, and_assoc]

lemma stepThen_initialized_eq (m0 : AgentManager)
    (r : Option String × AgentManager)
    (k : AgentManager → Option String × AgentManager)
    (hr : r.2.initialized = m0.initialized)
    (hk : ∀ x, x.initialized = m0.initialized →
      (k x).2.initialized = (if (k x).1 = none then true else m0.initialized)) :
    (stepThen r k).2.initialized =
      (if (stepThen r k).1 = none then true else m0.initialized) := by
  rcases r with ⟨e, m⟩
  cases e with
  | none => exact hk m hr
  | some e => simpa [stepThen] using hr

lemma tryMainInit_initialized (env : InitEnv) (imp : Imports) (m : AgentManager) :
    (tryMainInit env imp m).2.initialized =
      (if (tryMainInit env imp m).1 = none then true else m.initialized) := by
  unfold tryMainInit
  refine stepThen_initialized_eq m _ _ (coordStep_initialized env 0 m)
    (fun m1 h1 => ?_)
  refine stepThen_initialized_eq m _ _
    ((initAgentStep_initialized _ _ _ setPolicy m1 (fun _ _ => rfl)).trans h1)
    (fun m2 h2 => ?_)
  refine stepThen_initialized_eq m _ _
    ((initAgentStep_initialized _ _ _ setCitizen m2 (fun _ _ => rfl)).trans h2)
    (fun m3 h3 => ?_)
  refine stepThen_initialized_eq m _ _
    ((initAgentStep_initialized _ _ _ setDoc m3 (fun _ _ => rfl)).trans h3)
    (fun m4 h4 => ?_)
  simp

/-- Claim C10: `IntegratedAgentManager.initialize` returns `True` and sets
`self.initialized` exactly when either the full path or the
coordinator-only fallback completes without exception; when the fallback
also raises it returns `False` and leaves `initialized` `False`; and after
a successful fallback the coordinator attribute holds the instance built
by the fallback. -/
theorem manager_init_recovery (env : InitEnv) (imp : Imports)
    (m : AgentManager) (h : m.initialized = false) :
    ((AgentManager.initAll env imp m).1 = (mainOk env imp || fallbackOk env)) ∧
    ((AgentManager.initAll env imp m).2.initialized =
      (AgentManager.initAll env imp m).1) ∧
    (∀ c, mainOk env imp = false → env.coordCtor 1 = .ok c →
      fallbackOk env = true →
      (AgentManager.initAll env imp m).2.coordinator = some c) := by
  unfold AgentManager.initAll
  have hni := tryMainInit_none_iff env imp m
  have hinit := tryMainInit_initialized env imp m
  rcases ht : tryMainInit env imp m with ⟨e1, m1⟩
  rw [ht] at hni hinit
  cases e1 with
  | none =>
    have hmain : mainOk env imp = true := hni.mp rfl
    refine ⟨by simp [hmain], by simpa using hinit, fun c hm _ _ => ?_⟩
    rw [hm] at hmain; exact absurd hmain (by simp)
  | some e =>
    have hmain : mainOk env imp = false := by
      cases hM : mainOk env imp
      · rfl
      · exact absurd (hni.mpr hM) (by simp)
    have hm1init : m1.initialized = false := by
      simpa [h] using hinit
    dsimp only
    have hcoordIff := coordStep_fst_none_iff env 1 m1
    have hi2 := coordStep_initialized env 1 m1
    rcases hf : coordStep env 1 m1 with ⟨e2, m2⟩
    rw [hf] at hcoordIff hi2
    cases e2 with
    | none =>
      have hfb : fallbackOk env = true := by
        simpa [fallbackOk] using hcoordIff.mp rfl
      refine ⟨by simp [hmain, hfb], by simp, fun c _ hc1 _ => ?_⟩
      have := coordStep_coordinator env 1 m1 c hc1
      rw [hf] at this
      simpa using this
    | some e2 =>
      have hfb : fallbackOk env = false := by
        cases hF : fallbackOk env
        · rfl
        · have : (some e2 : Option String) = none := by
            apply hcoordIff.mpr; simpa [fallbackOk] using hF
          exact absurd this (by simp)
      refine ⟨by simp [hmain, hfb], by simpa [hm1init] using hi2,
              fun c _ _ hfb2 => ?_⟩
      rw [hfb2] at hfb; exact absurd hfb (by simp)

/-- An initialization environment whose main path fails (the policy
checker's constructor raises) but whose fallback succeeds. -/
def initEnvFallback : InitEnv where
  coordCtor := fun a => .ok (a + 5)
  coordInitCall := fun _ => .ok ()
  policyCtor := .error "boom"
  policyInit := .ok ()
  citizenCtor := .ok 11
  citizenInit := .ok ()
  docCtor := .ok 12
  docInit := .ok ()

/-- The import state when all three optional imports succeed. -/
def impAll : Imports := ⟨some (), true, some (), true, some (), true⟩

/-- Witness for C10: with a failing policy constructor and a working
fallback, `initialize` returns `True`, marks the manager initialized, and
stores the fallback coordinator instance (id 6). -/
theorem manager_init_recovery_witness :
    (AgentManager.initAll initEnvFallback impAll AgentManager.new).1 = true ∧
    (AgentManager.initAll initEnvFallback impAll AgentManager.new).2.initialized = true ∧
    (AgentManager.initAll initEnvFallback impAll AgentManager.new).2.coordinator = some 6 := by
  have h := manager_init_recovery initEnvFallback impAll AgentManager.new rfl
  refine ⟨by rw [h.1]; rfl, by rw [h.2.1, h.1]; rfl, h.2.2 6 rfl rfl rfl⟩

/-! ## C2: how many loops and how many runs per loop -/

lemma createdIds_append (a b : List LoopEvent) :
    createdIds (a ++ b) = createdIds a ++ createdIds b := by
  induction a with
  | nil => rfl
  | cons e tr ih => cases e <;> simp [createdIds, ih]

lemma runCount_append (lid : Nat) (a b : List LoopEvent) :
    runCount lid (a ++ b) = runCount lid a + runCount lid b := by
  induction a with
  | nil => simp [runCount]
  | cons e tr ih => cases e <;> simp [runCount, ih, Nat.add_assoc]

lemma createdIds_replicate_ran (n lid : Nat) :
    createdIds (List.replicate n (LoopEvent.ran lid)) = [] := by
  induction n with
  | zero => rfl
  | succ k ih => simpa [List.replicate, createdIds] using ih

lemma runCount_replicate_ran (n lid : Nat) :
    runCount lid (List.replicate n (LoopEvent.ran lid)) = n := by
  induction n with
  | zero => rfl
  | succ k ih => simp [List.replicate, runCount, ih, Nat.add_comm]

lemma runPolicies_loopEvents_ok (env : Env) (pid lid : Nat) (ps : List Json)
    (acc : List Json) (s : Sys)
    (hok : ∀ p ∈ ps, exOk (env.analyze_policy_text pid p) = true) :
    (runPolicies env pid lid ps acc s).2.loopEvents =
      s.loopEvents ++ List.replicate ps.length (LoopEvent.ran lid) := by
  induction ps generalizing acc s with
  | nil => simp [runPolicies]
  | cons p rest ih =>
    have hp := hok p (by simp)
    cases hr : env.analyze_policy_text pid p with
    | error e => rw [hr] at hp; simp [exOk] at hp
    | ok r =>
      simp only [runPolicies, runUntilComplete, hr]
      rw [ih _ _ (fun q hq => hok q (by simp [hq]))]
      simp [List.replicate]

lemma runPolicies_createdIds (env : Env) (pid lid : Nat) (ps : List Json)
    (acc : List Json) (s : Sys) :
    createdIds (runPolicies env pid lid ps acc s).2.loopEvents =
      createdIds s.loopEvents := by
  induction ps generalizing acc s with
  | nil => rfl
  | cons p rest ih =>
    cases hr : env.analyze_policy_text pid p <;>
      simp [runPolicies, runUntilComplete, hr, ih, createdIds_append, createdIds]

lemma create_body_trace (env : Env) (data : List (String × Json)) (s0 : Sys)
    (h : s0.loopEvents = []) :
    (createdIds (api_create_scenario_body env data s0).2.loopEvents).length ≤ 1 ∧
    ∀ l ∈ createdIds (api_create_scenario_body env data s0).2.loopEvents,
      runCount l (api_create_scenario_body env data s0).2.loopEvents = 1 := by
  unfold api_create_scenario_body
  repeat' split
  all_goals simp_all [newEventLoop, runUntilComplete, closeLoop,
    get_coordinator_loopEvents, get_coordinator_nextLoopId, createdIds, runCount]
  all_goals split <;> simp_all [newEventLoop, runUntilComplete, closeLoop,
    get_coordinator_loopEvents, get_coordinator_nextLoopId, createdIds, runCount]

lemma policy_body_trace (env : Env) (data : List (String × Json)) (s0 : Sys)
    (h : s0.loopEvents = []) :
    (createdIds (api_policy_analyze_body env data s0).2.loopEvents).length ≤ 1 ∧
    ∀ l ∈ createdIds (api_policy_analyze_body env data s0).2.loopEvents,
      runCount l (api_policy_analyze_body env data s0).2.loopEvents = 1 := by
  unfold api_policy_analyze_body
  repeat' split
  all_goals simp_all [newEventLoop, runUntilComplete, closeLoop, createdIds, runCount]
  all_goals (repeat' split) <;>
    simp_all [newEventLoop, runUntilComplete, closeLoop, createdIds, runCount]

lemma chat_body_trace (env : Env) (data : List (String × Json)) (s0 : Sys)
    (h : s0.loopEvents = []) :
    (createdIds (api_citizen_chat_body env data s0).2.loopEvents).length ≤ 1 ∧
    ∀ l ∈ createdIds (api_citizen_chat_body env data s0).2.loopEvents,
      runCount l (api_citizen_chat_body env data s0).2.loopEvents = 1 := by
  unfold api_citizen_chat_body
  repeat' split
  all_goals simp_all [newEventLoop, runUntilComplete, closeLoop, createdIds, runCount]
  all_goals (repeat' split) <;>
    simp_all [newEventLoop, runUntilComplete, closeLoop, createdIds, runCount]

lemma document_body_trace (env : Env) (data : List (String × Json)) (s0 : Sys)
    (h : s0.loopEvents = []) :
    (createdIds (api_document_process_body env data s0).2.loopEvents).length ≤ 1 ∧
    ∀ l ∈ createdIds (api_document_process_body env data s0).2.loopEvents,
      runCount l (api_document_process_body env data s0).2.loopEvents = 1 := by
  unfold api_document_process_body
  repeat' split
  all_goals simp_all [newEventLoop, runUntilComplete, closeLoop, createdIds, runCount]
  all_goals (repeat' split) <;>
    simp_all [newEventLoop, runUntilComplete, closeLoop, createdIds, runCount]

lemma weather_body_trace (env : Env) (lat lon : String) (s0 : Sys)
    (h : s0.loopEvents = []) :
    (createdIds (api_get_weather_body env lat lon s0).2.loopEvents).length ≤ 1 ∧
    (∀ l ∈ createdIds (api_get_weather_body env lat lon s0).2.loopEvents,
       runCount l (api_get_weather_body env lat lon s0).2.loopEvents ≤ 1) ∧
    (∀ e, env.pyFloatS lat = .error e →
       createdIds (api_get_weather_body env lat lon s0).2.loopEvents = [s0.nextLoopId] ∧
       runCount s0.nextLoopId (api_get_weather_body env lat lon s0).2.loopEvents = 0) := by
  unfold api_get_weather_body
  repeat' split
  all_goals simp_all [newEventLoop, runUntilComplete, closeLoop, createdIds, runCount,
    get_coordinator_loopEvents, get_coordinator_nextLoopId]
  all_goals (repeat' split) <;>
    simp_all [newEventLoop, runUntilComplete, closeLoop, createdIds, runCount,
      get_coordinator_loopEvents, get_coordinator_nextLoopId]

lemma collabScenario_trace (env : Env) (sd : Json) (s0 : Sys)
    (h : s0.loopEvents = []) :
    (createdIds (collabScenario env sd s0).2.loopEvents).length ≤ 1 ∧
    ∀ l ∈ createdIds (collabScenario env sd s0).2.loopEvents,
      runCount l (collabScenario env sd s0).2.loopEvents = 1 := by
  unfold collabScenario
  repeat' split
  all_goals simp_all [newEventLoop, runUntilComplete, closeLoop, createdIds, runCount]
  all_goals (repeat' split) <;>
    simp_all [newEventLoop, runUntilComplete, closeLoop, createdIds, runCount]

lemma collabScenario_createdIds_le (env : Env) (sd : Json) (s : Sys) :
    (createdIds (collabScenario env sd s).2.loopEvents).length ≤
      (createdIds s.loopEvents).length + 1 := by
  unfold collabScenario
  repeat' split
  all_goals simp_all [newEventLoop, runUntilComplete, closeLoop,
    createdIds_append, createdIds]
  all_goals (repeat' split) <;>
    simp_all [newEventLoop, runUntilComplete, closeLoop, createdIds_append, createdIds]

lemma collabPolicies_createdIds_le (env : Env) (pd : Json) (s : Sys) :
    (createdIds (collabPolicies env pd s).2.loopEvents).length ≤
      (createdIds s.loopEvents).length + 1 := by
  unfold collabPolicies
  repeat' split
  all_goals simp_all [newEventLoop, closeLoop, createdIds_append, createdIds,
    runPolicies_createdIds]
  all_goals (repeat' split) <;>
    simp_all [newEventLoop, closeLoop, createdIds_append, createdIds,
      runPolicies_createdIds]

lemma collabPolicies_success_trace (env : Env) (ps : List Json) (pid : Nat)
    (s0 : Sys) (h : s0.loopEvents = [])
    (hpc : s0.mgr.policy_checker = some pid)
    (hok : ∀ p ∈ ps, exOk (env.analyze_policy_text pid p) = true)
    (hne : ps ≠ []) :
    createdIds (collabPolicies env (.arr ps) s0).2.loopEvents = [s0.nextLoopId] ∧
    runCount s0.nextLoopId (collabPolicies env (.arr ps) s0).2.loopEvents = ps.length := by
  unfold collabPolicies
  rw [hpc]
  have ht : truthy (Json.arr ps) = true := by simp [truthy, hne]
  rw [ht]
  simp only [if_true, newEventLoop, jIter]
  have hrp := runPolicies_loopEvents_ok env pid s0.nextLoopId ps []
      { s0 with nextLoopId := s0.nextLoopId + 1,
                openLoops := s0.openLoops ++ [s0.nextLoopId],
                loopEvents := s0.loopEvents ++ [.created s0.nextLoopId] } hok
  split <;>
    simp_all [closeLoop, h, createdIds_append, createdIds, createdIds_replicate_ran,
      runCount_append, runCount, runCount_replicate_ran]

lemma collaborate_body_createdIds_le (env : Env) (data : List (String × Json))
    (s0 : Sys) (h : s0.loopEvents = []) :
    (createdIds (api_agents_collaborate_body env data s0).2.loopEvents).length ≤ 2 := by
  simp only [api_agents_collaborate_body]
  split
  · cases h1 : jDictGet (jGetD data "task_data" (.obj [])) "scenario" .null with
    | error e => simp [h, createdIds]
    | ok sd =>
      dsimp only
      cases h2 : jDictGet (jGetD data "task_data" (.obj [])) "policies" (.arr []) with
      | error e => simp [h, createdIds]
      | ok pd =>
        dsimp only
        rcases h3 : collabScenario env sd s0 with ⟨r1, s1⟩
        have hs1 : (createdIds s1.loopEvents).length ≤ 1 := by
          have := collabScenario_createdIds_le env sd s0
          rw [h3] at this; simpa [h, createdIds] using this
        cases r1 with
        | error e => simpa using hs1.trans (by omega)
        | ok sr =>
          dsimp only
          rcases h4 : collabPolicies env pd s1 with ⟨r2, s2⟩
          have hs2 : (createdIds s2.loopEvents).length ≤ 2 := by
            have := collabPolicies_createdIds_le env pd s1
            rw [h4] at this; simp at this; omega
          cases r2 <;> simpa using hs2
  · simp [h, createdIds]

/-- Counterexample to claim C2 as stated: on the concrete collaboration
request `cexData` (a scenario plus two policy documents) against the
fully-initialized state, `api_agents_collaborate` creates two event loops,
and the policies loop gets two `run_until_complete` calls — so neither
"at most one event loop per request" nor "exactly one run per loop" holds
for this handler. -/
theorem one_loop_per_request_cex :
    ¬ ((createdIds (api_agents_collaborate testEnv cexData sysFull).2.loopEvents).length ≤ 1 ∧
       ∀ l ∈ createdIds (api_agents_collaborate testEnv cexData sysFull).2.loopEvents,
         runCount l (api_agents_collaborate testEnv cexData sysFull).2.loopEvents = 1) := by
  decide

/-- Claim C2, amended: each of `api_create_scenario`, `api_policy_analyze`,
`api_citizen_chat`, `api_document_process` creates at most one event loop
per request and runs exactly one coroutine on any loop it creates;
`api_get_weather` creates at most one loop and runs at most one coroutine
on it — zero when `float()` raises on a path segment, in which case the
loop is still created and closed unused; `api_agents_collaborate` creates
up to two loops: its scenario part runs exactly one coroutine on its loop,
while its policies part runs one coroutine per policy document on a single
shared loop (shown here on the all-successful path). -/
theorem loop_run_discipline (env : Env) (data : List (String × Json))
    (lat lon : String) (sd : Json) (ps : List Json) (pid : Nat) (s0 : Sys)
    (h : s0.loopEvents = []) :
    ((createdIds (api_create_scenario env data s0).2.loopEvents).length ≤ 1 ∧
      ∀ l ∈ createdIds (api_create_scenario env data s0).2.loopEvents,
        runCount l (api_create_scenario env data s0).2.loopEvents = 1) ∧
    ((createdIds (api_policy_analyze env data s0).2.loopEvents).length ≤ 1 ∧
      ∀ l ∈ createdIds (api_policy_analyze env data s0).2.loopEvents,
        runCount l (api_policy_analyze env data s0).2.loopEvents = 1) ∧
    ((createdIds (api_citizen_chat env data s0).2.loopEvents).length ≤ 1 ∧
      ∀ l ∈ createdIds (api_citizen_chat env data s0).2.loopEvents,
        runCount l (api_citizen_chat env data s0).2.loopEvents = 1) ∧
    ((createdIds (api_document_process env data s0).2.loopEvents).length ≤ 1 ∧
      ∀ l ∈ createdIds (api_document_process env data s0).2.loopEvents,
        runCount l (api_document_process env data s0).2.loopEvents = 1) ∧
    ((createdIds (api_get_weather env lat lon s0).2.loopEvents).length ≤ 1 ∧
      (∀ l ∈ createdIds (api_get_weather env lat lon s0).2.loopEvents,
        runCount l (api_get_weather env lat lon s0).2.loopEvents ≤ 1) ∧
      (∀ e, env.pyFloatS lat = .error e →
        createdIds (api_get_weather env lat lon s0).2.loopEvents = [s0.nextLoopId] ∧
        runCount s0.nextLoopId (api_get_weather env lat lon s0).2.loopEvents = 0)) ∧
    ((createdIds (api_agents_collaborate env data s0).2.loopEvents).length ≤ 2) ∧
    ((createdIds (collabScenario env sd s0).2.loopEvents).length ≤ 1 ∧
      ∀ l ∈ createdIds (collabScenario env sd s0).2.loopEvents,
        runCount l (collabScenario env sd s0).2.loopEvents = 1) ∧
    (s0.mgr.policy_checker = some pid →
      (∀ p ∈ ps, exOk (env.analyze_policy_text pid p) = true) → ps ≠ [] →
      createdIds (collabPolicies env (.arr ps) s0).2.loopEvents = [s0.nextLoopId] ∧
      runCount s0.nextLoopId (collabPolicies env (.arr ps) s0).2.loopEvents = ps.length) := by
  refine ⟨?_, ?_, ?_, ?_, ?_, ?_, ?_, ?_⟩
  · rw [api_create_scenario_snd]; exact create_body_trace env data s0 h
  · rw [api_policy_analyze_snd]; exact policy_body_trace env data s0 h
  · rw [api_citizen_chat_snd]; exact chat_body_trace env data s0 h
  · rw [api_document_process_snd]; exact document_body_trace env data s0 h
  · rw [api_get_weather_snd]; exact weather_body_trace env lat lon s0 h
  · rw [api_agents_collaborate_snd]; exact collaborate_body_createdIds_le env data s0 h
  · exact collabScenario_trace env sd s0 h
  · exact fun hpc hok hne => collabPolicies_success_trace env ps pid s0 h hpc hok hne

/-- Witness for the amended C2: on the concrete collaboration request the
handler stays within two loops, and the policies loop of the two-document
success path records exactly two runs. -/
theorem loop_run_discipline_witness :
    (createdIds (api_agents_collaborate testEnv cexData sysFull).2.loopEvents).length ≤ 2 ∧
    runCount sysFull.nextLoopId
      (collabPolicies testEnv (.arr [.str "p1", .str "p2"]) sysFull).2.loopEvents = 2 := by
  have h := loop_run_discipline testEnv cexData "abc" "73" .null
    [.str "p1", .str "p2"] 1 sysFull rfl
  exact ⟨h.2.2.2.2.2.1,
         (h.2.2.2.2.2.2.2 rfl (fun p hp => rfl) (by simp)).2⟩
